import Mathlib

set_option maxRecDepth 8000

/- Shallow embedding of the LD2410 serial radar driver, file LD2410/ld2410.py.
   Bytes are modelled as Nat values below 256 and byte strings as List Nat;
   the hex command strings of the source denote the byte lists modelled here.
   Code that can raise a Python exception returns Except. The constants file
   ld2410_consts.py is imported by the source but is not present under src,
   so every constant taken from it is modelled from the spec and marked as
   such in its doc comment. -/

namespace LD2410

/-- Python slicing l[a:b] with nonnegative bounds a and b: elements from index
a up to, and excluding, index b, truncated at the end of the list. -/
def pySlice (l : List Nat) (a b : Nat) : List Nat := (l.take b).drop a

/-- Python slicing l[-4:]: the last four elements, or the whole list when it is
shorter than four elements. -/
def takeLast4 {α : Type} (l : List α) : List α := l.drop (l.length - 4)

/-- Modelled from the spec: bounds of the gate index range, section 4.3 of the
spec fixes gate indices to the inclusive range 0 to 8. GATE_MIN and GATE_MAX
come from the missing ld2410_consts.py. -/
def GATE_MIN : Nat := 0

/-- Modelled from the spec: upper gate index, inclusive. -/
def GATE_MAX : Nat := 8

/-- Modelled from the spec: lower sensitivity bound, section 4.3 fixes
sensitivities to the inclusive range 0 to 100. -/
def SENS_MIN : Nat := 0

/-- Modelled from the spec: upper sensitivity bound, inclusive. -/
def SENS_MAX : Nat := 100

/-- Modelled from the spec: the two byte command code of the gate sensitivity
edit command (section 6: a command payload is a 2 byte command code followed
by tag and value pairs). The concrete value is taken from the LD2410 protocol
and is irrelevant to the claims, only its length matters. -/
def CMD_GATE_SENS_EDIT : List Nat := [0x64, 0x00]

/-- Modelled from the spec: 2 byte parameter tag selecting the gate word. -/
def PARAM_GATE_SELECT : List Nat := [0x00, 0x00]

/-- Modelled from the spec: 2 byte parameter tag for the moving sensitivity. -/
def PARAM_MOVING_GATE_WORD : List Nat := [0x01, 0x00]

/-- Modelled from the spec: 2 byte parameter tag for the static sensitivity. -/
def PARAM_STATIC_GATE_WORD : List Nat := [0x02, 0x00]

/-- The big endian 4 byte representation of a 32 bit unsigned integer, the
model of struct.pack with format >I in int_to_4b (ld2410.py line 59). The
source raises struct.error for inputs outside 32 bits; all call sites pass
range validated values, and theorems carry the 32 bit bound where it is
needed. -/
def be4 (n : Nat) : List Nat :=
  [n / 16777216 % 256, n / 65536 % 256, n / 256 % 256, n % 256]

/-- int_to_4b (ld2410.py lines 57 to 61): pack the integer big endian, then
reverse the bytes, producing the 4 byte little endian representation. -/
def int_to_4b (n : Nat) : List Nat := (be4 n).reverse

/-- Little endian value of a byte list: the number obtained by interpreting
the reversed list as a big endian integer, the decoding direction used by the
spec for the round trip property. -/
def leVal (l : List Nat) : Nat := l.foldr (fun b acc => acc * 256 + b) 0

/-- validate_range (ld2410.py lines 43 to 49): membership of the input in the
Python range from lower to upper, so lower inclusive and upper exclusive;
outside the range an Exception is raised, modelled as an error value. -/
def validate_range (input lower upper : Nat) : Except String Unit :=
  if lower ≤ input ∧ input < upper then Except.ok ()
  else Except.error "is not a valid setting, please pick a value between the given bounds"

/-- edit_gate_sensitivity (ld2410.py lines 148 to 163): validate the gate
index and the moving sensitivity, then the static sensitivity, where gates 1
and 2 only accept 0; only after all validation succeeds is the command
payload built and sent, so an error value means no bytes were sent on the
transport. The returned list is the byte level command payload that
send_command transmits. -/
def edit_gate_sensitivity (gate moving_sens static_sens : Nat) :
    Except String (List Nat) :=
  match validate_range gate GATE_MIN (GATE_MAX + 1) with
  | Except.error e => Except.error e
  | Except.ok _ =>
    match validate_range moving_sens SENS_MIN (SENS_MAX + 1) with
    | Except.error e => Except.error e
    | Except.ok _ =>
      match (if gate = 1 ∨ gate = 2 then validate_range static_sens 0 1
             else validate_range static_sens SENS_MIN (SENS_MAX + 1)) with
      | Except.error e => Except.error e
      | Except.ok _ =>
        Except.ok (CMD_GATE_SENS_EDIT ++ PARAM_GATE_SELECT ++ int_to_4b gate
          ++ PARAM_MOVING_GATE_WORD ++ int_to_4b moving_sens
          ++ PARAM_STATIC_GATE_WORD ++ int_to_4b static_sens)

/-- Modelled from the spec: the baud rate lookup table of ld2410_consts.py,
mapping each enumerated selector to its actual baud rate (spec section 6: a
small enumerated lookup table). The concrete selector strings and rates follow
the LD2410 protocol; only the key set matters for the claims. -/
def BAUD_LOOKUP : List (String × Nat) :=
  [("0100", 9600), ("0200", 19200), ("0300", 38400), ("0400", 57600),
   ("0500", 115200), ("0600", 230400), ("0700", 256000), ("0800", 460800)]

/-- Modelled from the spec: PARAM_ACCEPTABLE_BAUDS lists exactly the selectors
of the lookup table. -/
def PARAM_ACCEPTABLE_BAUDS : List String := BAUD_LOOKUP.map Prod.fst

/-- Modelled from the spec: hex command code prefix for the baud rate set
command; the source concatenates it with the selector string. -/
def CMD_BAUD_RATE_SET : String := "A10100"

/-- A raised Python error: either a KeyError from a dictionary access, whose
message is just the missing key, or an explicit Exception with a message. -/
inductive PyError where
  | keyError (key : String)
  | exception (msg : String)
deriving DecidableEq

/-- set_baud_rate (ld2410.py lines 183 to 194): the first statement is a
logging call whose f string evaluates BAUD_LOOKUP of the selector, so an out
of table selector raises KeyError there, before the explicit membership check
on PARAM_ACCEPTABLE_BAUDS is reached. On success the returned list holds the
command strings handed to send_command; an error value means no bytes were
sent. The reconnect path is outside every claim and is not modelled. -/
def set_baud_rate (baud_rate : String) : Except PyError (List String) :=
  match BAUD_LOOKUP.lookup baud_rate with
  | none => Except.error (PyError.keyError baud_rate)
  | some _ =>
    if baud_rate ∈ PARAM_ACCEPTABLE_BAUDS then
      Except.ok [CMD_BAUD_RATE_SET ++ baud_rate]
    else
      Except.error (PyError.exception
        (baud_rate ++ " is not a valid setting. Consult consts.py to find an appropriate setting."))

/-- Modelled from the spec: ack frame index of the moving gate threshold in
the parameter read response. The missing ld2410_consts.py fixes the offsets;
they are modelled as consecutive per gate byte offsets in the ack frame, the
layout the spec describes (three thresholds plus 9 moving and 9 static per
gate sensitivities). -/
def REF_MAX_MOVING_GATE : Nat := 12

/-- Modelled from the spec: ack index of the static gate threshold. -/
def REF_MAX_STATIC_GATE : Nat := 13

/-- Modelled from the spec: ack index of the sensitivity of moving gate 0. -/
def REF_MOVING_GATE_SENS_0 : Nat := 14

/-- Modelled from the spec: ack index of the sensitivity of moving gate 8,
eight positions after gate 0, the same naming convention that the sibling
telemetry constants use, where get_radar_data adds one to the _8 offset to
close a slice. -/
def REF_MOVING_GATE_SENS_8 : Nat := 22

/-- Modelled from the spec: ack index of the sensitivity of static gate 0. -/
def REF_STATIC_GATE_SENS_0 : Nat := 23

/-- Modelled from the spec: ack index of the sensitivity of static gate 8. -/
def REF_STATIC_GATE_SENS_8 : Nat := 31

/-- Modelled from the spec: ack index of the empty timeout threshold. -/
def REF_EMPTY_TIMEOUT : Nat := 32

/-- The response processing of read_detection_params (ld2410.py lines 116 to
132), applied to the ack byte sequence ret returned by the parameter read
command: three indexed threshold bytes and two sensitivity slices, each slice
written ret from SENS_0 up to and excluding SENS_8. Out of range indexing
raises, modelled as an error. The int conversion in the comprehensions is the
identity on byte values. -/
def read_detection_params_decode (ret : List Nat) :
    Except String (List Nat × List Nat × List Nat) :=
  match ret[REF_MAX_MOVING_GATE]?, ret[REF_MAX_STATIC_GATE]?, ret[REF_EMPTY_TIMEOUT]? with
  | some t1, some t2, some t3 =>
      Except.ok ([t1, t2, t3],
        pySlice ret REF_MOVING_GATE_SENS_0 REF_MOVING_GATE_SENS_8,
        pySlice ret REF_STATIC_GATE_SENS_0 REF_STATIC_GATE_SENS_8)
  | _, _, _ => Except.error "IndexError"

/-- Modelled from the spec: the fixed 4 byte data frame header constant
REF_READ_HEADER of the missing ld2410_consts.py; the spec fixes its length at
four bytes, the concrete value is the LD2410 data frame header. -/
def REF_READ_HEADER : List Nat := [0xF4, 0xF3, 0xF2, 0xF1]

/-- Modelled from the spec: body length of a standard telemetry frame read
after the header (spec section 4.2). -/
def REF_NORMAL_PACKET_LEN : Nat := 19

/-- Modelled from the spec: body length of an engineering telemetry frame,
the standard length plus 18 extra gate energy bytes. -/
def REF_ENG_MODE_PACKET_LEN : Nat := 37

/-- Modelled from the spec: index of the byte whose value distinguishes the
engineering frame format (the mode signature byte). -/
def REF_ENG_CHECK_IDX : Nat := 2

/-- Modelled from the spec: value of the signature byte in engineering
format frames. -/
def REF_ENG_CHECK : Nat := 0x01

/-- Modelled from the spec: the fixed trailing checksum and footer constant of
a telemetry frame; REF_PACKET_CRC_IDX of the source is the negative Python
index minus four, so the compared slice is the last four bytes, takeLast4. -/
def REF_PACKET_CRC : List Nat := [0xF8, 0xF7, 0xF6, 0xF5]

/-- packet body length chosen by get_data_frame (ld2410.py lines 250 to 253)
from the engineering mode flag. -/
def read_len (eng_mode : Bool) : Nat :=
  if eng_mode then REF_ENG_MODE_PACKET_LEN else REF_NORMAL_PACKET_LEN

/-- One result of a single byte serial read: an exception from the transport,
or the bytes obtained, which are one byte or empty on a quiet timeout. -/
abbrev ReadRes := Except Unit (List Nat)

/-- State of the header synchronization loop: the bounded deque of the last
read results (class Queue, ld2410.py lines 11 to 19, with max_size 4) and the
consecutive read failure counter of the driver. -/
structure SyncState where
  buffer : List (List Nat)
  failCount : Nat

/-- Queue.add on a deque with maxlen 4: append and drop the oldest element
once more than four are held. -/
def queueAdd (q : List (List Nat)) (x : List Nat) : List (List Nat) :=
  takeLast4 (q ++ [x])

/-- One iteration body of the synchronization loop of get_data_frame
(ld2410.py lines 237 to 247): on a successful read the bytes are appended to
the deque; on a transport exception the failure counter is incremented twice,
once on line 241 and once on line 243, a warning is emitted when the counter
then exceeds 32, and an empty byte string is appended. The Bool records
whether the warning was emitted in this iteration. -/
def syncStep (s : SyncState) (r : ReadRes) : SyncState × Bool :=
  match r with
  | Except.ok b => (⟨queueAdd s.buffer b, s.failCount⟩, false)
  | Except.error _ =>
      let c := s.failCount + 1 + 1
      (⟨queueAdd s.buffer [], c⟩, decide (32 < c))

/-- The synchronization loop itself: before every read the joined deque
contents are compared with the header constant; on a match the loop exits.
The loop of the source blocks forever on an exhausted model stream, which the
embedding reports as none; on success it returns the final state and the
unconsumed remainder of the stream. -/
def findHeader : SyncState → List ReadRes → Option (SyncState × List ReadRes)
  | s, [] =>
      if s.buffer.flatten = REF_READ_HEADER then some (s, []) else none
  | s, r :: rs =>
      if s.buffer.flatten = REF_READ_HEADER then some (s, r :: rs)
      else findHeader (syncStep s r).1 rs

/-- The stream of single byte successful reads carrying the given bytes. -/
def singles (bs : List Nat) : List ReadRes := bs.map (fun b => Except.ok [b])

/-- Synchronization state at entry of get_data_frame with a given failure
count: the deque starts empty. -/
def initSync : SyncState := ⟨[], 0⟩

/-- Everything get_data_frame does after synchronization (ld2410.py lines 255
to 275), applied to the outcome of reading the frame body: on a transport
exception the function returns None; otherwise the signature byte is indexed,
raising IndexError on a too short body, then either the engineering mode
desync branch fires, setting the mode flag, or, only otherwise, the last four
bytes are compared with the checksum constant and a mismatch logs a warning;
a non empty body resets the failure counter and the body is returned either
way. -/
structure FrameOut where
  result : Except String (Option (List Nat))
  engMode : Bool
  failCount : Nat
  warnDesync : Bool
  warnChecksum : Bool

/-- The frame body handling of get_data_frame, see FrameOut. -/
def processFrame (engMode : Bool) (failCount : Nat) (body : Except Unit (List Nat)) :
    FrameOut :=
  match body with
  | Except.error _ => ⟨Except.ok none, engMode, failCount, false, false⟩
  | Except.ok ret =>
    match ret[REF_ENG_CHECK_IDX]? with
    | none => ⟨Except.error "IndexError", engMode, failCount, false, false⟩
    | some b =>
      if b = REF_ENG_CHECK ∧ engMode = false then
        ⟨Except.ok (some ret), true, if ret.isEmpty then failCount else 0, true, false⟩
      else if takeLast4 ret ≠ REF_PACKET_CRC then
        ⟨Except.ok (some ret), engMode, if ret.isEmpty then failCount else 0, false, true⟩
      else
        ⟨Except.ok (some ret), engMode, if ret.isEmpty then failCount else 0, false, false⟩

/-- Modelled from the spec: telemetry body index of the target type byte. The
missing ld2410_consts.py fixes the telemetry offsets; they are modelled after
the frame layout of spec section 3, consecutive fields after the two length
bytes and the signature byte. -/
def REF_TARGET_TYPE : Nat := 4

/-- Modelled from the spec: first byte of the moving target distance. -/
def REF_TARGET_MOVE_DIST_HEAD : Nat := 5

/-- Modelled from the spec: last byte of the moving target distance. -/
def REF_TARGET_MOVE_DIST_TAIL : Nat := 6

/-- Modelled from the spec: index of the moving target energy byte. -/
def REF_TARGET_MOVE_ENERGY : Nat := 7

/-- Modelled from the spec: first byte of the static target distance. -/
def REF_TARGET_STATIC_DIST_HEAD : Nat := 8

/-- Modelled from the spec: last byte of the static target distance. -/
def REF_TARGET_STATIC_DIST_TAIL : Nat := 9

/-- Modelled from the spec: index of the static target energy byte. -/
def REF_TARGET_STATIC_ENERGY : Nat := 10

/-- Modelled from the spec: index of the overall detection distance byte. -/
def REF_DETECT_DIST : Nat := 11

/-- Modelled from the spec: index of the energy byte of moving gate 0 in an
engineering frame. -/
def REF_MOVING_GATE_ENERGY_0 : Nat := 13

/-- Modelled from the spec: index of the energy byte of moving gate 8. -/
def REF_MOVING_GATE_ENERGY_8 : Nat := 21

/-- Modelled from the spec: index of the energy byte of static gate 0. -/
def REF_STATIC_GATE_ENERGY_0 : Nat := 22

/-- Modelled from the spec: index of the energy byte of static gate 8. -/
def REF_STATIC_GATE_ENERGY_8 : Nat := 30

/-- int of the hex of reversed bytes, the 2 byte little endian decode used by
get_radar_data; on an empty slice the int call of the source raises
ValueError, modelled as an error. -/
def bytes_rev_int (l : List Nat) : Except String Nat :=
  match l with
  | [] => Except.error "ValueError"
  | _ :: _ => Except.ok (leVal l)

/-- The decoding part of get_radar_data (ld2410.py lines 286 to 309), applied
to a frame body ret already obtained from get_data_frame: build the standard
six field list, and append the two 9 gate energy slices exactly when the
engineering mode flag is set at decode time, otherwise leave them as None.
Python indexing raises on a too short body, modelled as an error. -/
def get_radar_data_decode (eng_mode : Bool) (ret : List Nat) :
    Except String (List Nat × Option (List Nat) × Option (List Nat)) :=
  match ret[REF_TARGET_TYPE]? with
  | none => Except.error "IndexError"
  | some target_type =>
    match bytes_rev_int (pySlice ret REF_TARGET_MOVE_DIST_HEAD (REF_TARGET_MOVE_DIST_TAIL + 1)) with
    | Except.error e => Except.error e
    | Except.ok moving_target_dist =>
      match ret[REF_TARGET_MOVE_ENERGY]? with
      | none => Except.error "IndexError"
      | some moving_target_energy =>
        match bytes_rev_int (pySlice ret REF_TARGET_STATIC_DIST_HEAD (REF_TARGET_STATIC_DIST_TAIL + 1)) with
        | Except.error e => Except.error e
        | Except.ok static_target_dist =>
          match ret[REF_TARGET_STATIC_ENERGY]? with
          | none => Except.error "IndexError"
          | some static_target_energy =>
            match ret[REF_DETECT_DIST]? with
            | none => Except.error "IndexError"
            | some detection_dist =>
              let standard_frame := [target_type, moving_target_dist,
                moving_target_energy, static_target_dist, static_target_energy,
                detection_dist]
              if eng_mode then
                Except.ok (standard_frame,
                  some (pySlice ret REF_MOVING_GATE_ENERGY_0 (REF_MOVING_GATE_ENERGY_8 + 1)),
                  some (pySlice ret REF_STATIC_GATE_ENERGY_0 (REF_STATIC_GATE_ENERGY_8 + 1)))
              else
                Except.ok (standard_frame, none, none)

/-- The concurrency fields of the driver set up in LD2410 init (ld2410.py
lines 32 to 35): whether the threading Event stop signal is set, and the
worker thread handle, None until start spawns one. -/
structure DriverThreads where
  stopEventSet : Bool
  workerThread : Option Unit

/-- Driver state right after construction: stop event not set, no worker. -/
def initDriverThreads : DriverThreads := ⟨false, none⟩

/-- start (ld2410.py lines 317 to 322): spawn the worker and clear the stop
event. -/
def start (_ : DriverThreads) : DriverThreads := ⟨false, some ()⟩

/-- Observable outcome of a stop call that did not raise. -/
inductive StopOutcome where
  | stopped
  | alreadyStopped
deriving DecidableEq

/-- stop (ld2410.py lines 324 to 330): when the stop event is not set, the
event is set and join is called on the worker thread; if no worker exists the
attribute access on None raises AttributeError. When the event is already
set, the call only logs. -/
def stop (s : DriverThreads) : Except String (DriverThreads × StopOutcome) :=
  if s.stopEventSet = false then
    match s.workerThread with
    | none => Except.error "AttributeError: NoneType object has no attribute join"
    | some _ => Except.ok (⟨true, s.workerThread⟩, StopOutcome.stopped)
  else
    Except.ok (s, StopOutcome.alreadyStopped)

/-- Little endian decoding inverts int_to_4b on 32 bit values. -/
theorem leVal_int_to_4b (n : Nat) (h : n < 4294967296) : leVal (int_to_4b n) = n := by
  simp [leVal, int_to_4b, be4]
  omega

/-- Branch normal form of edit_gate_sensitivity: the validation chain reduces
to nested conditionals on the numeric bounds. -/
theorem edit_gate_sensitivity_eq (g m s : Nat) :
    edit_gate_sensitivity g m s =
      (if g < 9 then
        (if m < 101 then
          (if g = 1 ∨ g = 2 then
            (if s < 1 then
              Except.ok (CMD_GATE_SENS_EDIT ++ PARAM_GATE_SELECT ++ int_to_4b g
                ++ PARAM_MOVING_GATE_WORD ++ int_to_4b m
                ++ PARAM_STATIC_GATE_WORD ++ int_to_4b s)
             else Except.error "is not a valid setting, please pick a value between the given bounds")
           else
            (if s < 101 then
              Except.ok (CMD_GATE_SENS_EDIT ++ PARAM_GATE_SELECT ++ int_to_4b g
                ++ PARAM_MOVING_GATE_WORD ++ int_to_4b m
                ++ PARAM_STATIC_GATE_WORD ++ int_to_4b s)
             else Except.error "is not a valid setting, please pick a value between the given bounds"))
         else Except.error "is not a valid setting, please pick a value between the given bounds")
       else Except.error "is not a valid setting, please pick a value between the given bounds") := by
  by_cases h1 : g < 9 <;> by_cases h2 : m < 101 <;> by_cases hg : g = 1 ∨ g = 2 <;>
    by_cases h3 : s < 1 <;> by_cases h4 : s < 101 <;>
      simp [edit_gate_sensitivity, validate_range, GATE_MIN, GATE_MAX, SENS_MIN,
        SENS_MAX, h1, h2, hg, h3, h4]

/-- The three 4 byte fields sit at offsets 4, 10 and 16 of the payload. -/
theorem pySlice_gate_sens_fields (x y z : Nat) :
    pySlice (CMD_GATE_SENS_EDIT ++ PARAM_GATE_SELECT ++ int_to_4b x
      ++ PARAM_MOVING_GATE_WORD ++ int_to_4b y
      ++ PARAM_STATIC_GATE_WORD ++ int_to_4b z) 4 8 = int_to_4b x ∧
    pySlice (CMD_GATE_SENS_EDIT ++ PARAM_GATE_SELECT ++ int_to_4b x
      ++ PARAM_MOVING_GATE_WORD ++ int_to_4b y
      ++ PARAM_STATIC_GATE_WORD ++ int_to_4b z) 10 14 = int_to_4b y ∧
    pySlice (CMD_GATE_SENS_EDIT ++ PARAM_GATE_SELECT ++ int_to_4b x
      ++ PARAM_MOVING_GATE_WORD ++ int_to_4b y
      ++ PARAM_STATIC_GATE_WORD ++ int_to_4b z) 16 20 = int_to_4b z :=
  ⟨rfl, rfl, rfl⟩

/-- C5: int_to_4b encodes a 32 bit unsigned integer as its 4 byte little
endian representation, int_to_4b of 0x01020304 yields bytes 04 03 02 01, and
for every gate index and sensitivities accepted by edit_gate_sensitivity the
three 4 byte fields placed in the command payload decode back, little endian,
to exactly the gate and the two sensitivities. -/
theorem int_to_4b_roundtrip_gate_sensitivity :
    int_to_4b 0x01020304 = [0x04, 0x03, 0x02, 0x01] ∧
    ∀ gate moving_sens static_sens cmd,
      edit_gate_sensitivity gate moving_sens static_sens = Except.ok cmd →
      leVal (pySlice cmd 4 8) = gate ∧
      leVal (pySlice cmd 10 14) = moving_sens ∧
      leVal (pySlice cmd 16 20) = static_sens := by
  refine ⟨rfl, ?_⟩
  intro g m s cmd h
  rw [edit_gate_sensitivity_eq] at h
  by_cases h1 : g < 9
  · rw [if_pos h1] at h
    by_cases h2 : m < 101
    · rw [if_pos h2] at h
      have finish : cmd = CMD_GATE_SENS_EDIT ++ PARAM_GATE_SELECT ++ int_to_4b g
          ++ PARAM_MOVING_GATE_WORD ++ int_to_4b m
          ++ PARAM_STATIC_GATE_WORD ++ int_to_4b s → s < 101 →
          leVal (pySlice cmd 4 8) = g ∧ leVal (pySlice cmd 10 14) = m ∧
            leVal (pySlice cmd 16 20) = s := by
        intro hc hs
        subst hc
        obtain ⟨e1, e2, e3⟩ := pySlice_gate_sens_fields g m s
        rw [e1, e2, e3, leVal_int_to_4b g (by omega), leVal_int_to_4b m (by omega),
          leVal_int_to_4b s (by omega)]
        exact ⟨rfl, rfl, rfl⟩
      by_cases hg : g = 1 ∨ g = 2
      · rw [if_pos hg] at h
        by_cases h3 : s < 1
        · rw [if_pos h3] at h
          exact finish (Except.ok.inj h).symm (by omega)
        · rw [if_neg h3] at h
          exact absurd h (by simp)
      · rw [if_neg hg] at h
        by_cases h4 : s < 101
        · rw [if_pos h4] at h
          exact finish (Except.ok.inj h).symm h4
        · rw [if_neg h4] at h
          exact absurd h (by simp)
    · rw [if_neg h2] at h
      exact absurd h (by simp)
  · rw [if_neg h1] at h
    exact absurd h (by simp)

/-- C5 witness: the round trip at gate 3, moving sensitivity 50, static
sensitivity 40. -/
theorem int_to_4b_roundtrip_gate_sensitivity_witness :
    ∃ cmd, edit_gate_sensitivity 3 50 40 = Except.ok cmd ∧
      leVal (pySlice cmd 4 8) = 3 ∧ leVal (pySlice cmd 10 14) = 50 ∧
      leVal (pySlice cmd 16 20) = 40 := by
  refine ⟨CMD_GATE_SENS_EDIT ++ PARAM_GATE_SELECT ++ int_to_4b 3
    ++ PARAM_MOVING_GATE_WORD ++ int_to_4b 50
    ++ PARAM_STATIC_GATE_WORD ++ int_to_4b 40, ?h, ?_⟩
  case h => rfl
  exact int_to_4b_roundtrip_gate_sensitivity.2 3 50 40 _ rfl

/-- C8: edit_gate_sensitivity with gate 1 or 2 accepts only static
sensitivity 0 and rejects every other static sensitivity with a validation
error raised before anything is sent, while every other valid gate accepts
the full static range 0 to 100. An error value means validation failed before
the command payload was built, so no bytes reached the transport. -/
theorem gate12_static_sens_validation :
    (∀ gate ms ss : Nat, (gate = 1 ∨ gate = 2) → ms ≤ 100 →
      ((ss ≠ 0 → ∃ e, edit_gate_sensitivity gate ms ss = Except.error e) ∧
       (ss = 0 → ∃ cmd, edit_gate_sensitivity gate ms ss = Except.ok cmd))) ∧
    (∀ gate ms ss : Nat, gate ≤ 8 → gate ≠ 1 → gate ≠ 2 → ms ≤ 100 → ss ≤ 100 →
      ∃ cmd, edit_gate_sensitivity gate ms ss = Except.ok cmd) := by
  constructor
  · intro gate ms ss hg hms
    have h1 : gate < 9 := by rcases hg with rfl | rfl <;> omega
    constructor
    · intro hss
      refine ⟨"is not a valid setting, please pick a value between the given bounds", ?_⟩
      rw [edit_gate_sensitivity_eq, if_pos h1, if_pos (by omega), if_pos hg,
        if_neg (by omega)]
    · intro hss
      rw [edit_gate_sensitivity_eq, if_pos h1, if_pos (by omega : ms < 101),
        if_pos hg, if_pos (by omega : ss < 1)]
      exact ⟨_, rfl⟩
  · intro gate ms ss hgate hg1 hg2 hms hss
    rw [edit_gate_sensitivity_eq, if_pos (by omega : gate < 9),
      if_pos (by omega : ms < 101), if_neg (by simp [hg1, hg2]),
      if_pos (by omega : ss < 101)]
    exact ⟨_, rfl⟩

/-- C8 witness: gate 1 with static sensitivity 7 is rejected, gate 1 with 0
and gate 3 with 40 are accepted. -/
theorem gate12_static_sens_validation_witness :
    (∃ e, edit_gate_sensitivity 1 50 7 = Except.error e) ∧
    (∃ cmd, edit_gate_sensitivity 1 50 0 = Except.ok cmd) ∧
    (∃ cmd, edit_gate_sensitivity 3 50 40 = Except.ok cmd) :=
  ⟨(gate12_static_sens_validation.1 1 50 7 (Or.inl rfl) (by omega)).1 (by omega),
   (gate12_static_sens_validation.1 1 50 0 (Or.inl rfl) (by omega)).2 rfl,
   gate12_static_sens_validation.2 3 50 40 (by omega) (by omega) (by omega)
     (by omega) (by omega)⟩

/-- C9 counterexample: for the out of table selector ffff, set_baud_rate
raises the KeyError coming from the lookup inside the logging statement,
whose message is only the missing key, and not the Exception that names the
valid settings table; so the claim that a validation error naming the table
is raised is false at this input. -/
theorem set_baud_rate_keyerror_cex :
    set_baud_rate "ffff" = Except.error (PyError.keyError "ffff") ∧
    ∀ msg : String, set_baud_rate "ffff" ≠ Except.error (PyError.exception msg) := by
  refine ⟨rfl, ?_⟩
  intro msg h
  rw [show set_baud_rate "ffff" = Except.error (PyError.keyError "ffff") from rfl] at h
  simp at h

/-- C9 amended: for every baud rate selector outside the lookup table,
set_baud_rate raises a KeyError from the table access in its first logging
statement, before any bytes are sent on the transport; the validation branch
naming the table is unreachable for such selectors. -/
theorem set_baud_rate_out_of_table (sel : String)
    (h : BAUD_LOOKUP.lookup sel = none) :
    set_baud_rate sel = Except.error (PyError.keyError sel) := by
  simp [set_baud_rate, h]

/-- C9 witness: the selector ffff is not in the table and produces the
KeyError. -/
theorem set_baud_rate_out_of_table_witness :
    BAUD_LOOKUP.lookup "ffff" = none ∧
    set_baud_rate "ffff" = Except.error (PyError.keyError "ffff") :=
  ⟨by decide, set_baud_rate_out_of_table "ffff" (by decide)⟩

/-- C2: evaluating the response processing of read_detection_params on a 40
byte ack whose byte at index i has value i: the threshold list has its three
entries, but both sensitivity lists carry only 8 elements, the bytes at
offsets 14 to 21 and 23 to 30, dropping gate 8 at offsets 22 and 31, because
the slices end at the inclusive gate 8 offset without the plus one used for
the energy slices in get_radar_data. This contradicts the claim and the doc
comment of the function, which promise gates 0 through 8. -/
theorem read_detection_params_gate8_missing :
    read_detection_params_decode (List.range 40) =
      Except.ok ([12, 13, 32],
        [14, 15, 16, 17, 18, 19, 20, 21],
        [23, 24, 25, 26, 27, 28, 29, 30]) := by
  rfl

/-- C7: stop called on a freshly constructed driver, before any start,
raises AttributeError because the stop event is not set and the worker
thread field is still None; while stop after a start stops the loop, and a
second stop in a row is the logged no op. The claim that stop before any
start logs and does nothing is therefore violated by the code. -/
theorem stop_before_start_attribute_error :
    stop initDriverThreads =
      Except.error "AttributeError: NoneType object has no attribute join" ∧
    stop (start initDriverThreads) =
      Except.ok (⟨true, some ()⟩, StopOutcome.stopped) ∧
    stop ⟨true, some ()⟩ = Except.ok (⟨true, some ()⟩, StopOutcome.alreadyStopped) :=
  ⟨rfl, rfl, rfl⟩

/-- A slice with its start inside the list and below its stop is non empty. -/
theorem pySlice_ne_nil (l : List Nat) (a b : Nat) (h1 : a < b) (h2 : a < l.length) :
    pySlice l a b ≠ [] := by
  have hlen : (pySlice l a b).length ≠ 0 := by
    simp only [pySlice, List.length_drop, List.length_take]
    omega
  intro hnil
  rw [hnil] at hlen
  simp at hlen

/-- On a non empty byte list the reversed hex decode succeeds with the little
endian value. -/
theorem bytes_rev_int_ne_nil (l : List Nat) (h : l ≠ []) :
    bytes_rev_int l = Except.ok (leVal l) := by
  cases l with
  | nil => exact absurd rfl h
  | cons a t => rfl

/-- C1 counterexample: a single failed read taken in the initial state leaves
the failure counter at 2, not at 1 as the claim states, because the increment
statement appears twice in the exception handler of get_data_frame. -/
theorem sync_fail_double_increment_cex :
    ¬ ((syncStep ⟨[], 0⟩ (Except.error ())).1.failCount = 0 + 1) := by decide

/-- C1 amended: every failed single byte read during header synchronization
increments the failure counter by exactly two, the warning is emitted on a
failed read exactly when the counter, after the two increments, exceeds 32,
a successful read never changes the counter and never warns, and a
successful non empty frame body read resets the counter to 0. -/
theorem read_failure_counter_amended (s : SyncState) (em : Bool) (fc : Nat)
    (frame : List Nat) :
    ((syncStep s (Except.error ())).1.failCount = s.failCount + 2) ∧
    (((syncStep s (Except.error ())).2 = true) ↔ 32 < s.failCount + 2) ∧
    (∀ b, (syncStep s (Except.ok b)).1.failCount = s.failCount ∧
      (syncStep s (Except.ok b)).2 = false) ∧
    (REF_ENG_CHECK_IDX < frame.length →
      (processFrame em fc (Except.ok frame)).failCount = 0) := by
  refine ⟨rfl, ?_, fun b => ⟨rfl, rfl⟩, ?_⟩
  · simp [syncStep]
  · intro hlen
    have hne : frame.isEmpty = false := by
      cases frame with
      | nil => simp [REF_ENG_CHECK_IDX] at hlen
      | cons a t => simp
    simp only [processFrame, List.getElem?_eq_getElem hlen]
    split
    · simp [hne]
    · split <;> simp [hne]

/-- C1 witness: from failure count 0 a failed read moves the counter to 2,
and a successful standard length frame read resets a counter of 7 to 0. -/
theorem read_failure_counter_amended_witness :
    (syncStep ⟨[], 0⟩ (Except.error ())).1.failCount = 0 + 2 ∧
    (processFrame false 7 (Except.ok (List.range 19))).failCount = 0 := by
  have h := read_failure_counter_amended ⟨[], 0⟩ false 7 (List.range 19)
  exact ⟨h.1, h.2.2.2 (by decide)⟩

/-- C3: for every telemetry frame body, long enough to be indexed at the
signature byte, whose trailing four bytes differ from the checksum and footer
constant, get_data_frame still returns the frame to its caller and does not
raise; and unless the engineering desync branch preempts the check, the
mismatch sets the checksum warning signal. -/
theorem checksum_mismatch_advisory (em : Bool) (fc : Nat) (frame : List Nat)
    (hlen : REF_ENG_CHECK_IDX < frame.length)
    (hcrc : takeLast4 frame ≠ REF_PACKET_CRC) :
    (processFrame em fc (Except.ok frame)).result = Except.ok (some frame) ∧
    (¬ (frame[REF_ENG_CHECK_IDX] = REF_ENG_CHECK ∧ em = false) →
      (processFrame em fc (Except.ok frame)).warnChecksum = true) := by
  simp only [processFrame, List.getElem?_eq_getElem hlen]
  constructor
  · split
    · rfl
    · split <;> rfl
  · intro hnot
    rw [if_neg hnot, if_pos hcrc]

/-- C3 witness: a 19 byte standard frame with a wrong trailer is returned and
flags the checksum warning. -/
theorem checksum_mismatch_advisory_witness :
    (processFrame false 0 (Except.ok (List.range 19))).result =
      Except.ok (some (List.range 19)) ∧
    (processFrame false 0 (Except.ok (List.range 19))).warnChecksum = true := by
  have h := checksum_mismatch_advisory false 0 (List.range 19) (by decide) (by decide)
  exact ⟨h.1, h.2 (by decide)⟩

/-- C10: whenever the engineering format signature byte is present while the
driver flag is off, get_data_frame flips the flag to true and, because the
footer comparison sits in the elif branch, performs no checksum validation at
all on that frame, whatever its trailing bytes are. -/
theorem eng_desync_skips_checksum (fc : Nat) (frame : List Nat)
    (h : frame[REF_ENG_CHECK_IDX]? = some REF_ENG_CHECK) :
    (processFrame false fc (Except.ok frame)).engMode = true ∧
    (processFrame false fc (Except.ok frame)).warnDesync = true ∧
    (processFrame false fc (Except.ok frame)).warnChecksum = false := by
  simp [processFrame, h]

/-- C10 witness: a frame with the signature byte and a wrong trailer flips
the mode and still raises no checksum warning. -/
theorem eng_desync_skips_checksum_witness :
    (processFrame false 5 (Except.ok [0, 0, 1, 9, 9])).engMode = true ∧
    (processFrame false 5 (Except.ok [0, 0, 1, 9, 9])).warnDesync = true ∧
    (processFrame false 5 (Except.ok [0, 0, 1, 9, 9])).warnChecksum = false :=
  eng_desync_skips_checksum 5 [0, 0, 1, 9, 9] (by decide)

/-- C4: in standard mode every successful decode carries None for both gate
energy arrays, and in engineering mode, on a full length engineering frame of
bytes, the decode succeeds with two arrays of exactly 9 elements each, all
values below 256. -/
theorem gate_energies_iff_eng_mode (ret : List Nat) :
    (∀ std me se, get_radar_data_decode false ret = Except.ok (std, me, se) →
      me = none ∧ se = none) ∧
    (ret.length = REF_ENG_MODE_PACKET_LEN → (∀ b ∈ ret, b < 256) →
      ∃ std me se,
        get_radar_data_decode true ret = Except.ok (std, some me, some se) ∧
        me.length = 9 ∧ se.length = 9 ∧
        (∀ x ∈ me, x < 256) ∧ (∀ x ∈ se, x < 256)) := by
  constructor
  · intro std me se h
    simp only [get_radar_data_decode] at h
    repeat' split at h
    all_goals simp_all
    all_goals rw [← h.2.1, ← h.2.2]
  · intro hlen hmem
    have hlen37 : ret.length = 37 := by simpa [REF_ENG_MODE_PACKET_LEN] using hlen
    have e4 : ret[(4 : Nat)]? = some ret[4] := List.getElem?_eq_getElem (by omega)
    have e7 : ret[(7 : Nat)]? = some ret[7] := List.getElem?_eq_getElem (by omega)
    have e10 : ret[(10 : Nat)]? = some ret[10] := List.getElem?_eq_getElem (by omega)
    have e11 : ret[(11 : Nat)]? = some ret[11] := List.getElem?_eq_getElem (by omega)
    have s1 : pySlice ret 5 7 ≠ [] := pySlice_ne_nil ret 5 7 (by omega) (by omega)
    have s2 : pySlice ret 8 10 ≠ [] := pySlice_ne_nil ret 8 10 (by omega) (by omega)
    have hdec : get_radar_data_decode true ret =
        Except.ok ([ret[4], leVal (pySlice ret 5 7), ret[7], leVal (pySlice ret 8 10),
          ret[10], ret[11]], some (pySlice ret 13 22), some (pySlice ret 22 31)) := by
      simp only [get_radar_data_decode, REF_TARGET_TYPE, REF_TARGET_MOVE_DIST_HEAD,
        REF_TARGET_MOVE_DIST_TAIL, REF_TARGET_MOVE_ENERGY, REF_TARGET_STATIC_DIST_HEAD,
        REF_TARGET_STATIC_DIST_TAIL, REF_TARGET_STATIC_ENERGY, REF_DETECT_DIST,
        REF_MOVING_GATE_ENERGY_0, REF_MOVING_GATE_ENERGY_8, REF_STATIC_GATE_ENERGY_0,
        REF_STATIC_GATE_ENERGY_8, Nat.reduceAdd, e4, e7, e10, e11,
        bytes_rev_int_ne_nil _ s1, bytes_rev_int_ne_nil _ s2, if_true]
    refine ⟨_, pySlice ret 13 22, pySlice ret 22 31, hdec, ?_, ?_, ?_, ?_⟩
    · simp only [pySlice, List.length_drop, List.length_take]
      omega
    · simp only [pySlice, List.length_drop, List.length_take]
      omega
    · intro x hx
      exact hmem x (List.mem_of_mem_take (List.mem_of_mem_drop hx))
    · intro x hx
      exact hmem x (List.mem_of_mem_take (List.mem_of_mem_drop hx))

/-- Flattening a list of singleton byte strings gives back the bytes. -/
theorem flatten_map_singleton (l : List Nat) :
    (l.map (fun b => [b])).flatten = l := by
  induction l with
  | nil => rfl
  | cons a t ih => simp [ih]

/-- Appending one more element and keeping the last four commutes with first
keeping the last four: the sliding window only depends on the recent past. -/
theorem takeLast4_snoc {α : Type} (p : List α) (b : α) :
    takeLast4 (takeLast4 p ++ [b]) = takeLast4 (p ++ [b]) := by
  by_cases hp : p.length ≤ 3
  · have h0 : p.length - 4 = 0 := by omega
    simp [takeLast4, h0]
  · unfold takeLast4
    simp only [List.length_append, List.length_drop, List.length_singleton]
    rw [show p.length - (p.length - 4) + 1 - 4 = 1 from by omega]
    rw [List.drop_append_of_le_length (by rw [List.length_drop]; omega)]
    rw [List.drop_drop]
    rw [show p.length - 4 + 1 = p.length - 3 from by omega,
      show p.length + 1 - 4 = p.length - 3 from by omega]
    rw [List.drop_append_of_le_length (by omega)]

/-- Queue.add of one more single byte read keeps the window of the last four
bytes, expressed on the underlying byte list. -/
theorem queueAdd_singleton (p : List Nat) (b : Nat) :
    queueAdd ((takeLast4 p).map (fun x => [x])) [b] =
      (takeLast4 (p ++ [b])).map (fun x => [x]) := by
  unfold queueAdd
  rw [show ((takeLast4 p).map (fun x => [x])) ++ [[b]] =
      ((takeLast4 p) ++ [b]).map (fun x => [x]) from by simp]
  rw [show takeLast4 (((takeLast4 p) ++ [b]).map (fun x => [x])) =
      (takeLast4 ((takeLast4 p) ++ [b])).map (fun x => [x]) from by
    unfold takeLast4
    rw [List.length_map, List.map_drop]]
  rw [takeLast4_snoc]

/-- Once the window holds the header, findHeader returns at once, consuming
nothing. -/
theorem findHeader_stop (s : SyncState) (rs : List ReadRes)
    (h : s.buffer.flatten = REF_READ_HEADER) :
    findHeader s rs = some (s, rs) := by
  cases rs <;> simp [findHeader, h]

/-- Core induction for C6: running the synchronization loop, with the window
of the already consumed prefix in the deque, over the remaining single byte
reads, stops exactly at the first position k whose trailing four bytes equal
the header. -/
theorem findHeader_singles_aux (rest : List Nat) :
    ∀ (pre : List Nat) (c k : Nat),
      pre.length < k → k ≤ pre.length + rest.length →
      takeLast4 ((pre ++ rest).take k) = REF_READ_HEADER →
      (∀ j, j < k → takeLast4 ((pre ++ rest).take j) ≠ REF_READ_HEADER) →
      findHeader ⟨(takeLast4 pre).map (fun x => [x]), c⟩ (singles rest) =
        some (⟨REF_READ_HEADER.map (fun x => [x]), c⟩,
          singles ((pre ++ rest).drop k)) := by
  induction rest with
  | nil =>
    intro pre c k h1 h2 _ _
    simp at h2
    omega
  | cons b rs ih =>
    intro pre c k h1 h2 hk hmin
    have hassoc : pre ++ b :: rs = (pre ++ [b]) ++ rs := by simp
    have hpretake : (pre ++ b :: rs).take pre.length = pre := List.take_left pre (b :: rs)
    have hnow : takeLast4 pre ≠ REF_READ_HEADER := by
      have := hmin pre.length h1
      rwa [hpretake] at this
    have hflat : ((takeLast4 pre).map (fun x => [x])).flatten ≠ REF_READ_HEADER := by
      rwa [flatten_map_singleton]
    have hstep :
        findHeader ⟨(takeLast4 pre).map (fun x => [x]), c⟩ (singles (b :: rs)) =
          findHeader ⟨(takeLast4 (pre ++ [b])).map (fun x => [x]), c⟩ (singles rs) := by
      simp only [singles, List.map_cons]
      rw [findHeader, if_neg hflat]
      simp only [syncStep, queueAdd_singleton]
    rw [hstep]
    by_cases hk1 : k = pre.length + 1
    · have hlenb : (pre ++ [b]).length = k := by
        simp only [List.length_append, List.length_singleton]
        omega
      have htakek : (pre ++ b :: rs).take k = pre ++ [b] := by
        rw [hassoc, List.take_left' hlenb]
      have hwin : takeLast4 (pre ++ [b]) = REF_READ_HEADER := by
        rw [← htakek]
        exact hk
      have hdropk : (pre ++ b :: rs).drop k = rs := by
        rw [hassoc, List.drop_left' hlenb]
      rw [hwin, hdropk]
      exact findHeader_stop _ _ (flatten_map_singleton _)
    · have h1b : (pre ++ [b]).length < k := by
        simp only [List.length_append, List.length_singleton]
        omega
      have h2b : k ≤ (pre ++ [b]).length + rs.length := by
        simp only [List.length_append, List.length_singleton]
        simp only [List.length_cons] at h2
        omega
      have hkb : takeLast4 (((pre ++ [b]) ++ rs).take k) = REF_READ_HEADER := by
        rwa [← hassoc]
      have hminb : ∀ j, j < k →
          takeLast4 (((pre ++ [b]) ++ rs).take j) ≠ REF_READ_HEADER := by
        intro j hj
        rw [← hassoc]
        exact hmin j hj
      have := ih (pre ++ [b]) c k h1b h2b hkb hminb
      rwa [← hassoc] at this

/-- C6: over any stream of successful single byte reads, the header
synchronization loop of get_data_frame consumes bytes one at a time and
returns control exactly at the first position where the last four bytes read
equal the header constant: it stops with the header in its window, having
consumed exactly the first k bytes, where k is the first index whose
trailing window matches, and leaves the rest of the stream unread. Noise
before the header and header bytes split across separate reads are covered
since every read carries a single byte. -/
theorem find_header_first_occurrence (bs : List Nat) (k : Nat)
    (hk4 : 4 ≤ k) (hklen : k ≤ bs.length)
    (hocc : takeLast4 (bs.take k) = REF_READ_HEADER)
    (hfirst : ∀ j, j < k → takeLast4 (bs.take j) ≠ REF_READ_HEADER) :
    findHeader initSync (singles bs) =
      some (⟨REF_READ_HEADER.map (fun x => [x]), 0⟩, singles (bs.drop k)) := by
  have h := findHeader_singles_aux bs [] 0 k (by simp only [List.length_nil]; omega)
    (by simpa using hklen) (by simpa using hocc) (by simpa using hfirst)
  simpa [initSync, takeLast4] using h

/-- C6 witness: on noise 9, 8, 244, 243 followed by the exact header bytes,
the loop synchronizes after consuming exactly the eight bytes of the first
full header occurrence, leaving nothing unread, although the header bytes
arrived one read at a time and its first two bytes also occurred inside the
noise. -/
theorem find_header_first_occurrence_witness :
    findHeader initSync (singles [9, 8, 244, 243, 244, 243, 242, 241]) =
      some (⟨REF_READ_HEADER.map (fun x => [x]), 0⟩,
        singles ([9, 8, 244, 243, 244, 243, 242, 241].drop 8)) :=
  find_header_first_occurrence [9, 8, 244, 243, 244, 243, 242, 241] 8
    (by omega) (by decide) (by decide) (by decide)

/-- C4 witness: the 37 byte frame with byte values 0 to 36 decodes in
engineering mode to two arrays of 9 bytes each, and the theorem applied in
standard mode confirms the arrays are absent there. -/
theorem gate_energies_iff_eng_mode_witness :
    ∃ std me se,
      get_radar_data_decode true (List.range 37) = Except.ok (std, some me, some se) ∧
      me.length = 9 ∧ se.length = 9 ∧
      (∀ x ∈ me, x < 256) ∧ (∀ x ∈ se, x < 256) :=
  (gate_energies_iff_eng_mode (List.range 37)).2 (by decide) (by decide)

end LD2410
